import Mathlib

/-!
Verification development for the blender-object-inspector add-on
(`src/blender/functions.py`).

The geometric core of the add-on is embedded shallowly over exact rational
arithmetic:

* `Vec3`, `BBox` — the host's `mathutils.Vector` triples and min/max corner
  bounding boxes.
* `extractBBox` — the world-space bounding-box extractor: the code maps every
  one of the eight bounding corners through the object's transform and takes
  per-axis `min`/`max` (`functions.py` lines 244–258, 351–361, 384–386,
  472–477).  At every call site relevant here the transform is a translation
  combined with a per-axis scale (the operators never rotate the objects they
  create), so the transform is modelled as `loc + scale * p` componentwise.
* `fittingBox` — `OBJECT_OT_CreateFittingRectangle.execute`, lines 260–287.
* `mouldStage` / `mouldFinish` — `OBJECT_OT_CreateMouldBox.execute`:
  construction of the solid mould box, placement of the duplicated cutter
  mesh, the boolean-difference step and the final repositioning
  (lines 345–491).
* a small scene model (named objects, selection flags, an id counter and a
  name registry) for the operator-level behaviours: object creation, naming,
  the `poll`/`execute` dependency lookup and selection state.
-/

/-- A 3-component vector with exact rational coordinates, standing for the
host's `mathutils.Vector`. -/
structure Vec3 where
  x : ℚ
  y : ℚ
  z : ℚ
deriving DecidableEq, Repr

instance : Add Vec3 := ⟨fun a b => ⟨a.x + b.x, a.y + b.y, a.z + b.z⟩⟩

instance : Sub Vec3 := ⟨fun a b => ⟨a.x - b.x, a.y - b.y, a.z - b.z⟩⟩

/-- Scalar multiplication of a vector, used for halving corner sums. -/
def Vec3.smul (q : ℚ) (v : Vec3) : Vec3 := ⟨q * v.x, q * v.y, q * v.z⟩

/-- Componentwise order: every coordinate of `a` is at most that of `b`. -/
def Vec3.le (a b : Vec3) : Prop := a.x ≤ b.x ∧ a.y ≤ b.y ∧ a.z ≤ b.z

instance : LE Vec3 := ⟨Vec3.le⟩

instance (a b : Vec3) : Decidable (a ≤ b) :=
  inferInstanceAs (Decidable (a.x ≤ b.x ∧ a.y ≤ b.y ∧ a.z ≤ b.z))

@[simp] theorem Vec3.add_def (a b : Vec3) :
    a + b = ⟨a.x + b.x, a.y + b.y, a.z + b.z⟩ := rfl

@[simp] theorem Vec3.sub_def (a b : Vec3) :
    a - b = ⟨a.x - b.x, a.y - b.y, a.z - b.z⟩ := rfl

theorem Vec3.le_def (a b : Vec3) :
    a ≤ b ↔ a.x ≤ b.x ∧ a.y ≤ b.y ∧ a.z ≤ b.z := Iff.rfl

/-- An axis-aligned bounding box given by its minimal and maximal corner,
as produced by the per-axis `min`/`max` over the eight transformed bounding
corners (`functions.py` lines 249–258). -/
structure BBox where
  min : Vec3
  max : Vec3
deriving DecidableEq, Repr

/-- Per-axis extent of a bounding box: `bbox_max - bbox_min` (line 261). -/
def BBox.size (b : BBox) : Vec3 := b.max - b.min

/-- Midpoint of a bounding box: `(bbox_min + bbox_max) / 2`
(lines 280, 286–287, 362). -/
def BBox.center (b : BBox) : Vec3 := Vec3.smul (1/2) (b.min + b.max)

/-- The eight corner points of a bounding box, mirroring the host's
`object.bound_box` corner list. -/
def BBox.corners (b : BBox) : List Vec3 :=
  [⟨b.min.x, b.min.y, b.min.z⟩, ⟨b.max.x, b.min.y, b.min.z⟩,
   ⟨b.min.x, b.max.y, b.min.z⟩, ⟨b.max.x, b.max.y, b.min.z⟩,
   ⟨b.min.x, b.min.y, b.max.z⟩, ⟨b.max.x, b.min.y, b.max.z⟩,
   ⟨b.min.x, b.max.y, b.max.z⟩, ⟨b.max.x, b.max.y, b.max.z⟩]

/-- Apply a translation-plus-per-axis-scale transform to a point:
`matrix_world @ corner` for the unrotated objects this add-on creates. -/
def Vec3.applyTRS (loc scale p : Vec3) : Vec3 :=
  ⟨loc.x + scale.x * p.x, loc.y + scale.y * p.y, loc.z + scale.z * p.z⟩

/-- Minimum of a nonempty list of rationals, as Python's `min(...)` over a
corner generator; the empty case never arises (eight corners). -/
def qListMin : List ℚ → ℚ
  | [] => 0
  | q :: qs => qs.foldl min q

/-- Maximum of a nonempty list of rationals, as Python's `max(...)`. -/
def qListMax : List ℚ → ℚ
  | [] => 0
  | q :: qs => qs.foldl max q

/-- World-space bounding box extractor (`functions.py` lines 244–258 and the
analogous re-extractions at 351–361, 384–386, 472–477): transform all eight
bounding corners and take the per-axis minimum and maximum. -/
def extractBBox (loc scale : Vec3) (b : BBox) : BBox :=
  let cs := b.corners.map (Vec3.applyTRS loc scale)
  { min := ⟨qListMin (cs.map Vec3.x), qListMin (cs.map Vec3.y),
            qListMin (cs.map Vec3.z)⟩
    max := ⟨qListMax (cs.map Vec3.x), qListMax (cs.map Vec3.y),
            qListMax (cs.map Vec3.z)⟩ }

/-- For a valid box (`min ≤ max`) and nonnegative scale, the extractor
returns exactly the transformed corner pair. -/
theorem extractBBox_eq (loc scale : Vec3) (b : BBox)
    (hb : b.min ≤ b.max) (hs : ⟨0, 0, 0⟩ ≤ scale) :
    extractBBox loc scale b =
      ⟨Vec3.applyTRS loc scale b.min, Vec3.applyTRS loc scale b.max⟩ := by
  obtain ⟨hbx, hby, hbz⟩ := hb
  obtain ⟨hsx, hsy, hsz⟩ := hs
  have hx : loc.x + scale.x * b.min.x ≤ loc.x + scale.x * b.max.x := by
    have := mul_le_mul_of_nonneg_left hbx hsx; linarith
  have hy : loc.y + scale.y * b.min.y ≤ loc.y + scale.y * b.max.y := by
    have := mul_le_mul_of_nonneg_left hby hsy; linarith
  have hz : loc.z + scale.z * b.min.z ≤ loc.z + scale.z * b.max.z := by
    have := mul_le_mul_of_nonneg_left hbz hsz; linarith
  simp [extractBBox, BBox.corners, Vec3.applyTRS, qListMin, qListMax,
    List.foldl, min_eq_left hx, min_eq_left hy, min_eq_left hz,
    max_eq_right hx, max_eq_right hy, max_eq_right hz,
    min_eq_right hx, min_eq_right hy, min_eq_right hz,
    max_eq_left hx, max_eq_left hy, max_eq_left hz,
    min_self, max_self]

/-- Local bounding box of the unit cube created by
`bpy.ops.mesh.primitive_cube_add(size=1, ...)`: corners at `±1/2`. -/
def unitCubeLocal : BBox := ⟨⟨-(1/2), -(1/2), -(1/2)⟩, ⟨1/2, 1/2, 1/2⟩⟩

/-- World-space bounding box of a size-1 cube object with the given location
and (unapplied) per-axis scale. -/
def cubeWorldBBox (loc scale : Vec3) : BBox := extractBBox loc scale unitCubeLocal

theorem cubeWorldBBox_eq (loc scale : Vec3) (hs : (⟨0, 0, 0⟩ : Vec3) ≤ scale) :
    cubeWorldBBox loc scale =
      ⟨loc - Vec3.smul (1/2) scale, loc + Vec3.smul (1/2) scale⟩ := by
  rw [cubeWorldBBox, extractBBox_eq loc scale unitCubeLocal (by refine ⟨?_, ?_, ?_⟩ <;> norm_num [unitCubeLocal]) hs]
  simp only [Vec3.applyTRS, unitCubeLocal, Vec3.smul, Vec3.add_def, Vec3.sub_def,
    BBox.mk.injEq, Vec3.mk.injEq]
  refine ⟨⟨?_, ?_, ?_⟩, ?_, ?_, ?_⟩ <;> ring

/-! ## Fitting-box generator (`OBJECT_OT_CreateFittingRectangle.execute`) -/

/-- Scale and location assigned to the newly created fitting-box object. -/
structure FittingResult where
  scale : Vec3
  location : Vec3
deriving DecidableEq, Repr

/-- The fitting-box computation of `OBJECT_OT_CreateFittingRectangle.execute`
(`functions.py` lines 260–287): the box is a size-1 cube scaled to
`bbox_size + 2 * padding` on every axis, centred on the source bounding box on
Y and Z, and offset on X by half the mesh size plus half the box size plus
`side_spacing`. -/
def fittingBox (b : BBox) (padding side_spacing : ℚ) : FittingResult :=
  let bbox_size := b.max - b.min
  let box_width := bbox_size.x + padding * 2
  let box_length := bbox_size.y + padding * 2
  let box_height := bbox_size.z + padding * 2
  let mesh_center_x := (b.min.x + b.max.x) / 2
  let mesh_size_x := b.max.x - b.min.x
  let box_center_x := mesh_center_x + mesh_size_x / 2 + box_width / 2 + side_spacing
  { scale := ⟨box_width, box_length, box_height⟩
    location := ⟨box_center_x, (b.min.y + b.max.y) / 2, (b.min.z + b.max.z) / 2⟩ }

/-- Outcome of an operator invocation: `{'FINISHED'}` with the created data,
or `{'CANCELLED'}` after an error report. -/
inductive FitOutcome where
  | finished : FittingResult → FitOutcome
  | cancelled : FitOutcome
deriving DecidableEq, Repr

/-- The `execute` entry of the fitting-box operator: it cancels only when the
active object is missing or not a mesh (modelled as `none`); any mesh bounding
box — including a degenerate one — is accepted and produces a box
(lines 233–295 contain no other rejection path). -/
def fittingExecute (active : Option BBox) (padding side_spacing : ℚ) : FitOutcome :=
  match active with
  | none => .cancelled
  | some b => .finished (fittingBox b padding side_spacing)

/-- World-space bounding box of the fitting box the generator creates. -/
def fittingWorldBBox (b : BBox) (padding side_spacing : ℚ) : BBox :=
  cubeWorldBBox (fittingBox b padding side_spacing).location
    (fittingBox b padding side_spacing).scale

/-- Nonnegativity of the fitting-box scale for a valid box and nonnegative
padding. -/
theorem fittingBox_scale_nonneg (b : BBox) (p s : ℚ)
    (hb : b.min ≤ b.max) (hp : 0 ≤ p) :
    (⟨0, 0, 0⟩ : Vec3) ≤ (fittingBox b p s).scale := by
  obtain ⟨hbx, hby, hbz⟩ := hb
  refine ⟨?_, ?_, ?_⟩ <;> simp [fittingBox] <;> linarith

/-- Closed form of the fitting box's world-space bounding box. -/
theorem fittingWorldBBox_eq (b : BBox) (p s : ℚ)
    (hb : b.min ≤ b.max) (hp : 0 ≤ p) :
    fittingWorldBBox b p s =
      ⟨(fittingBox b p s).location - Vec3.smul (1/2) (fittingBox b p s).scale,
       (fittingBox b p s).location + Vec3.smul (1/2) (fittingBox b p s).scale⟩ := by
  rw [fittingWorldBBox, cubeWorldBBox_eq _ _ (fittingBox_scale_nonneg b p s hb hp)]

/-- Claim C1: for every source bounding box `B` and padding `p ≥ 0`, the
fitting box's world-space size equals `B.size + 2p` on every axis; and a
degenerate (zero-size) bounding box with `p = 0` yields a box of size
`(0,0,0)` and is accepted (`FINISHED`), not rejected. -/
theorem fitting_box_size_spec (b : BBox) (p s : ℚ)
    (hb : b.min ≤ b.max) (hp : 0 ≤ p) :
    (fittingWorldBBox b p s).size = b.size + ⟨2 * p, 2 * p, 2 * p⟩ ∧
    (∀ v : Vec3, ∀ q : ℚ,
      (fittingWorldBBox ⟨v, v⟩ 0 q).size = ⟨0, 0, 0⟩ ∧
      fittingExecute (some ⟨v, v⟩) 0 q = .finished (fittingBox ⟨v, v⟩ 0 q)) := by
  constructor
  · rw [fittingWorldBBox_eq b p s hb hp]
    simp [BBox.size, fittingBox, Vec3.smul, Vec3.mk.injEq]
    refine ⟨?_, ?_, ?_⟩ <;> ring
  · intro v q
    have hdeg : (⟨v, v⟩ : BBox).min ≤ (⟨v, v⟩ : BBox).max := ⟨le_refl _, le_refl _, le_refl _⟩
    constructor
    · rw [fittingWorldBBox_eq ⟨v, v⟩ 0 q hdeg le_rfl]
      simp [BBox.size, fittingBox, Vec3.smul, Vec3.mk.injEq]
    · rfl

theorem fitting_box_size_spec_witness :
    (fittingWorldBBox ⟨⟨-1, -1, -1⟩, ⟨1, 1, 1⟩⟩ (1/10) 1).size =
      (⟨⟨-1, -1, -1⟩, ⟨1, 1, 1⟩⟩ : BBox).size + ⟨2 * (1/10), 2 * (1/10), 2 * (1/10)⟩ :=
  (fitting_box_size_spec ⟨⟨-1, -1, -1⟩, ⟨1, 1, 1⟩⟩ (1/10) 1
    (by refine ⟨?_, ?_, ?_⟩ <;> norm_num) (by norm_num)).1

/-- Claim C2: the fitting box is centred on the source box on Y and Z, does
not overlap it along X, its near face is exactly `side_spacing` past the
source's far face, and the documented scenario
(`min = (-1,-1,-1)`, `max = (1,1,1)`, `padding = 0.1`, `side_spacing = 1`)
gives world size `(2.2, 2.2, 2.2)` and centre `x = 3.1`. -/
theorem fitting_box_placement_spec (b : BBox) (p s : ℚ)
    (hb : b.min ≤ b.max) (hp : 0 ≤ p) (hs : 0 ≤ s) :
    (fittingWorldBBox b p s).center.y = b.center.y ∧
    (fittingWorldBBox b p s).center.z = b.center.z ∧
    b.max.x ≤ (fittingWorldBBox b p s).min.x ∧
    (fittingWorldBBox b p s).min.x = b.max.x + s ∧
    (fittingWorldBBox ⟨⟨-1, -1, -1⟩, ⟨1, 1, 1⟩⟩ (1/10) 1).size = ⟨11/5, 11/5, 11/5⟩ ∧
    (fittingWorldBBox ⟨⟨-1, -1, -1⟩, ⟨1, 1, 1⟩⟩ (1/10) 1).center.x = 31/10 := by
  have hcube : (⟨⟨-1, -1, -1⟩, ⟨1, 1, 1⟩⟩ : BBox).min ≤ (⟨⟨-1, -1, -1⟩, ⟨1, 1, 1⟩⟩ : BBox).max := by
    refine ⟨?_, ?_, ?_⟩ <;> norm_num
  rw [fittingWorldBBox_eq b p s hb hp,
    fittingWorldBBox_eq ⟨⟨-1, -1, -1⟩, ⟨1, 1, 1⟩⟩ (1/10) 1 hcube (by norm_num)]
  obtain ⟨hbx, hby, hbz⟩ := hb
  refine ⟨?_, ?_, ?_, ?_, ?_, ?_⟩ <;>
    simp [BBox.center, BBox.size, fittingBox, Vec3.smul, Vec3.mk.injEq] <;>
    linarith

theorem fitting_box_placement_spec_witness :
    (fittingWorldBBox ⟨⟨-1, -1, -1⟩, ⟨1, 1, 1⟩⟩ (1/10) 1).min.x =
      (⟨⟨-1, -1, -1⟩, ⟨1, 1, 1⟩⟩ : BBox).max.x + 1 ∧
    (fittingWorldBBox ⟨⟨-1, -1, -1⟩, ⟨1, 1, 1⟩⟩ (1/10) 1).size = ⟨11/5, 11/5, 11/5⟩ :=
  ⟨(fitting_box_placement_spec ⟨⟨-1, -1, -1⟩, ⟨1, 1, 1⟩⟩ (1/10) 1
      (by refine ⟨?_, ?_, ?_⟩ <;> norm_num) (by norm_num) (by norm_num)).2.2.2.1,
   (fitting_box_placement_spec ⟨⟨-1, -1, -1⟩, ⟨1, 1, 1⟩⟩ (1/10) 1
      (by refine ⟨?_, ?_, ?_⟩ <;> norm_num) (by norm_num) (by norm_num)).2.2.2.2.1⟩

/-! ## Mould-cavity generator (`OBJECT_OT_CreateMouldBox.execute`) -/

/-- Vertical placement of the duplicated cutter mesh (`functions.py`
line 415): `mould_box_top_z + obj_local_height / 2 - obj_local_center_offset_z`. -/
def meshTopPositionZ (mould_box_top_z obj_local_min_z obj_local_max_z : ℚ) : ℚ :=
  mould_box_top_z + (obj_local_max_z - obj_local_min_z) / 2
    - (obj_local_min_z + obj_local_max_z) / 2

/-- Scene state after the construction phase of
`OBJECT_OT_CreateMouldBox.execute` (lines 345–456), just before the boolean
modifier is applied: the solid mould box (its baked local geometry bounds and
its location) and the duplicated cutter mesh (likewise baked by
`transform_apply(location=True, rotation=True, scale=True)`, which moves the
world coordinates into the geometry and resets the object location to 0). -/
structure MouldPre where
  boxGeom : BBox
  boxLocation : Vec3
  copyGeom : BBox
  copyLocation : Vec3
deriving DecidableEq, Repr

/-- Construction phase of `OBJECT_OT_CreateMouldBox.execute`
(lines 345–456):

* a size-1 cube is created at the source's world bounding-box centre and
  scaled to the fitting box's scale (lines 362–378);
* `transform_apply(scale=True)` bakes that scale into the geometry
  (line 381), so the box's local bounds become the scaled unit-cube bounds
  and its own scale returns to 1;
* the box top is read off the re-extracted world bounding box (lines
  384–385);
* the source mesh is duplicated; the duplicate is centred on the mould box in
  X and Y and placed at `meshTopPositionZ` in Z, with the mould box's
  (identity) rotation and (now unit) scale (lines 395–422);
* `transform_apply` on the duplicate bakes its placement into the geometry
  and resets its location to the origin (line 425). -/
def mouldStage (objB objLocalB : BBox) (fitScale : Vec3) : MouldPre :=
  let obj_center := BBox.center objB
  let boxGeom := extractBBox ⟨0, 0, 0⟩ fitScale unitCubeLocal
  let mould_box_top_z := (extractBBox obj_center ⟨1, 1, 1⟩ boxGeom).max.z
  let copyLoc : Vec3 :=
    ⟨obj_center.x, obj_center.y,
     meshTopPositionZ mould_box_top_z objLocalB.min.z objLocalB.max.z⟩
  { boxGeom := boxGeom
    boxLocation := obj_center
    copyGeom := extractBBox copyLoc ⟨1, 1, 1⟩ objLocalB
    copyLocation := ⟨0, 0, 0⟩ }

/-- Result value of a Blender operator on the paths taken by
`OBJECT_OT_CreateMouldBox.execute` after the construction phase: it returns
`{'FINISHED'}` whether or not the modifier application succeeded. -/
inductive OpStatus where
  | finished
  | cancelled
deriving DecidableEq, Repr

/-- Final state of the mould-cavity generator. -/
structure MouldOut where
  boxGeom : BBox
  boxLocation : Vec3
  boxHasCavity : Bool
  copyLocation : Vec3
  warnedBooleanFailed : Bool
  status : OpStatus
deriving DecidableEq, Repr

/-- Boolean-difference and repositioning phase of
`OBJECT_OT_CreateMouldBox.execute` (lines 448–491).  `booleanOk` is the
host boolean solver's verdict (`'FINISHED' in result`, line 461).  A failed
modifier application leaves the mesh data untouched and only a warning is
reported (line 462); a successful one carves the cavity.  In either case the
cutter's bottom face sits exactly at the box's top face (see
`mould_cutter_tangency` below), so the DIFFERENCE removes no volume below the
box bounds and the box's bounding geometry is identical before and after the
modifier.  The code then re-extracts the box's world bounding box (lines
472–477), computes one X offset from the fitting box's location (line 480)
and adds it to both the mould box's and the cutter's locations (lines
483–484), returning `{'FINISHED'}` (line 491). -/
def mouldFinish (pre : MouldPre) (fitLocation : Vec3) (booleanOk : Bool) : MouldOut :=
  let mould_box_size := (extractBBox pre.boxLocation ⟨1, 1, 1⟩ pre.boxGeom).size
  let offset_x := (fitLocation.x + mould_box_size.x + 1) - pre.boxLocation.x
  { boxGeom := pre.boxGeom
    boxLocation := ⟨pre.boxLocation.x + offset_x, pre.boxLocation.y, pre.boxLocation.z⟩
    boxHasCavity := booleanOk
    copyLocation := ⟨pre.copyLocation.x + offset_x, pre.copyLocation.y, pre.copyLocation.z⟩
    warnedBooleanFailed := !booleanOk
    status := .finished }

/-- The cutter mesh is placed tangent to the mould box: its world-space
bottom face is exactly at the box's top face, for every input.  This is the
general fact behind the tangency counterexample and the bounding-box
preservation used in `mouldFinish`. -/
theorem mould_cutter_tangency (objB objLocalB : BBox) (fitScale : Vec3)
    (hl : objLocalB.min ≤ objLocalB.max) (hs : (⟨0, 0, 0⟩ : Vec3) ≤ fitScale) :
    (mouldStage objB objLocalB fitScale).copyGeom.min.z =
      (extractBBox (mouldStage objB objLocalB fitScale).boxLocation ⟨1, 1, 1⟩
        (mouldStage objB objLocalB fitScale).boxGeom).max.z := by
  have hone : (⟨0, 0, 0⟩ : Vec3) ≤ ⟨1, 1, 1⟩ := by refine ⟨?_, ?_, ?_⟩ <;> norm_num
  have hcube : unitCubeLocal.min ≤ unitCubeLocal.max := by
    refine ⟨?_, ?_, ?_⟩ <;> norm_num [unitCubeLocal]
  have hgeom : (extractBBox ⟨0, 0, 0⟩ fitScale unitCubeLocal).min ≤
      (extractBBox ⟨0, 0, 0⟩ fitScale unitCubeLocal).max := by
    rw [extractBBox_eq _ _ _ hcube hs]
    obtain ⟨h1, h2, h3⟩ := hs
    simp only at h1 h2 h3
    refine ⟨?_, ?_, ?_⟩ <;> simp [Vec3.applyTRS, unitCubeLocal] <;> linarith
  simp only [mouldStage]
  rw [extractBBox_eq _ _ _ hl hone, extractBBox_eq _ _ _ hgeom hone,
    extractBBox_eq _ _ _ hcube hs]
  simp [Vec3.applyTRS, meshTopPositionZ, unitCubeLocal]
  ring

/-- Validity of the baked mould-box geometry. -/
theorem mouldGeom_valid (fitScale : Vec3) (hs : (⟨0, 0, 0⟩ : Vec3) ≤ fitScale) :
    (extractBBox ⟨0, 0, 0⟩ fitScale unitCubeLocal).min ≤
      (extractBBox ⟨0, 0, 0⟩ fitScale unitCubeLocal).max := by
  have hcube : unitCubeLocal.min ≤ unitCubeLocal.max := by
    refine ⟨?_, ?_, ?_⟩ <;> norm_num [unitCubeLocal]
  rw [extractBBox_eq _ _ _ hcube hs]
  obtain ⟨h1, h2, h3⟩ := hs
  simp only at h1 h2 h3
  refine ⟨?_, ?_, ?_⟩ <;> simp [Vec3.applyTRS, unitCubeLocal] <;> linarith

/-- Closed form of the mould box's world-space bounding box before the
boolean step: centred on the source's world centre with half-extent
`fitScale / 2`. -/
theorem mouldStage_box_world (objB objLocalB : BBox) (fitScale : Vec3)
    (hs : (⟨0, 0, 0⟩ : Vec3) ≤ fitScale) :
    extractBBox (mouldStage objB objLocalB fitScale).boxLocation ⟨1, 1, 1⟩
        (mouldStage objB objLocalB fitScale).boxGeom =
      ⟨objB.center - Vec3.smul (1/2) fitScale,
       objB.center + Vec3.smul (1/2) fitScale⟩ := by
  have hone : (⟨0, 0, 0⟩ : Vec3) ≤ (⟨1, 1, 1⟩ : Vec3) := by refine ⟨?_, ?_, ?_⟩ <;> norm_num
  have hcube : unitCubeLocal.min ≤ unitCubeLocal.max := by
    refine ⟨?_, ?_, ?_⟩ <;> norm_num [unitCubeLocal]
  simp only [mouldStage]
  rw [extractBBox_eq _ _ _ (mouldGeom_valid fitScale hs) hone,
    extractBBox_eq _ _ _ hcube hs]
  simp only [Vec3.applyTRS, unitCubeLocal, Vec3.smul, Vec3.add_def, Vec3.sub_def,
    BBox.mk.injEq, Vec3.mk.injEq, BBox.center]
  refine ⟨⟨?_, ?_, ?_⟩, ?_, ?_, ?_⟩ <;> ring

/-- Claim C5: the solid mould box has world-space size exactly equal to the
fitting box's world-space size — whatever the mesh's shape — and is centred
on the source mesh's world bounding-box centre. -/
theorem mould_box_size_center_spec (objB objLocalB : BBox) (fitScale fitLoc : Vec3)
    (hs : (⟨0, 0, 0⟩ : Vec3) ≤ fitScale) :
    (extractBBox (mouldStage objB objLocalB fitScale).boxLocation ⟨1, 1, 1⟩
        (mouldStage objB objLocalB fitScale).boxGeom).size =
      (cubeWorldBBox fitLoc fitScale).size ∧
    (extractBBox (mouldStage objB objLocalB fitScale).boxLocation ⟨1, 1, 1⟩
        (mouldStage objB objLocalB fitScale).boxGeom).center = objB.center := by
  rw [mouldStage_box_world objB objLocalB fitScale hs, cubeWorldBBox_eq fitLoc fitScale hs]
  constructor
  · simp only [BBox.size, Vec3.smul, Vec3.add_def, Vec3.sub_def, Vec3.mk.injEq]
    refine ⟨?_, ?_, ?_⟩ <;> ring
  · simp only [BBox.center, Vec3.smul, Vec3.add_def, Vec3.sub_def, Vec3.mk.injEq]
    refine ⟨?_, ?_, ?_⟩ <;> ring

theorem mould_box_size_center_spec_witness :
    (extractBBox (mouldStage ⟨⟨-1, -1, -1⟩, ⟨1, 1, 1⟩⟩ ⟨⟨-1, -1, -1⟩, ⟨1, 1, 1⟩⟩
          ⟨11/5, 11/5, 11/5⟩).boxLocation ⟨1, 1, 1⟩
        (mouldStage ⟨⟨-1, -1, -1⟩, ⟨1, 1, 1⟩⟩ ⟨⟨-1, -1, -1⟩, ⟨1, 1, 1⟩⟩
          ⟨11/5, 11/5, 11/5⟩).boxGeom).center =
      (⟨⟨-1, -1, -1⟩, ⟨1, 1, 1⟩⟩ : BBox).center :=
  (mould_box_size_center_spec ⟨⟨-1, -1, -1⟩, ⟨1, 1, 1⟩⟩ ⟨⟨-1, -1, -1⟩, ⟨1, 1, 1⟩⟩
    ⟨11/5, 11/5, 11/5⟩ ⟨31/10, 0, 0⟩ (by refine ⟨?_, ?_, ?_⟩ <;> norm_num)).2

/-- World-space bounding box of the baked mould-box geometry at an arbitrary
location: `loc ± fitScale / 2`. -/
theorem mould_geom_world (loc fitScale : Vec3)
    (hs : (⟨0, 0, 0⟩ : Vec3) ≤ fitScale) :
    extractBBox loc ⟨1, 1, 1⟩ (extractBBox ⟨0, 0, 0⟩ fitScale unitCubeLocal) =
      ⟨loc - Vec3.smul (1/2) fitScale, loc + Vec3.smul (1/2) fitScale⟩ := by
  have hone : (⟨0, 0, 0⟩ : Vec3) ≤ (⟨1, 1, 1⟩ : Vec3) := by refine ⟨?_, ?_, ?_⟩ <;> norm_num
  have hcube : unitCubeLocal.min ≤ unitCubeLocal.max := by
    refine ⟨?_, ?_, ?_⟩ <;> norm_num [unitCubeLocal]
  rw [extractBBox_eq _ _ _ (mouldGeom_valid fitScale hs) hone,
    extractBBox_eq _ _ _ hcube hs]
  simp only [Vec3.applyTRS, unitCubeLocal, Vec3.smul, Vec3.add_def, Vec3.sub_def,
    BBox.mk.injEq, Vec3.mk.injEq]
  refine ⟨⟨?_, ?_, ?_⟩, ?_, ?_, ?_⟩ <;> ring

/-- Claim C3 (refuted by the code): at the default-cube input
(`bound_box` `(-1,-1,-1)..(1,1,1)`, fitting scale `(2.2, 2.2, 2.2)`) the
duplicate's bottom face sits exactly at the mould box's top face
(`z = 1.1`), so `duplicateCenterZ - meshLocalHalfHeight = boxTopZ` holds
with equality and the claimed strict inequality
`duplicateCenterZ - meshLocalHalfHeight < boxTopZ` is false: the placement
is tangent, not strictly overlapping. -/
theorem mould_overlap_claim_fails :
    (mouldStage ⟨⟨-1, -1, -1⟩, ⟨1, 1, 1⟩⟩ ⟨⟨-1, -1, -1⟩, ⟨1, 1, 1⟩⟩
        ⟨11/5, 11/5, 11/5⟩).copyGeom.min.z = 11/10 ∧
    (extractBBox (mouldStage ⟨⟨-1, -1, -1⟩, ⟨1, 1, 1⟩⟩ ⟨⟨-1, -1, -1⟩, ⟨1, 1, 1⟩⟩
          ⟨11/5, 11/5, 11/5⟩).boxLocation ⟨1, 1, 1⟩
        (mouldStage ⟨⟨-1, -1, -1⟩, ⟨1, 1, 1⟩⟩ ⟨⟨-1, -1, -1⟩, ⟨1, 1, 1⟩⟩
          ⟨11/5, 11/5, 11/5⟩).boxGeom).max.z = 11/10 ∧
    meshTopPositionZ (11/10) (-1) 1 - ((1 : ℚ) - (-1)) / 2 = 11/10 ∧
    ¬ meshTopPositionZ (11/10) (-1) 1 - ((1 : ℚ) - (-1)) / 2 < 11/10 := by
  refine ⟨?_, ?_, ?_, ?_⟩
  · norm_num [mouldStage, extractBBox, BBox.corners, Vec3.applyTRS, qListMin,
      qListMax, List.foldl, meshTopPositionZ, BBox.center, Vec3.smul,
      unitCubeLocal, min_def, max_def]
  · norm_num [mouldStage, extractBBox, BBox.corners, Vec3.applyTRS, qListMin,
      qListMax, List.foldl, meshTopPositionZ, BBox.center, Vec3.smul,
      unitCubeLocal, min_def, max_def]
  · norm_num [meshTopPositionZ]
  · norm_num [meshTopPositionZ]

/-- Claim C4, counterexample: with the default-cube source and the fitting
box generated by the documented parameters (location `x = 3.1`, scale
`2.2`), a failing boolean still moves the mould box — its location after the
failure path (`x = 6.3`) differs from its location before the boolean call
(`x = 0`), although the failure is reported. -/
theorem mould_failure_moves_box :
    (mouldFinish (mouldStage ⟨⟨-1, -1, -1⟩, ⟨1, 1, 1⟩⟩ ⟨⟨-1, -1, -1⟩, ⟨1, 1, 1⟩⟩
          ⟨11/5, 11/5, 11/5⟩) ⟨31/10, 0, 0⟩ false).warnedBooleanFailed = true ∧
    (mouldStage ⟨⟨-1, -1, -1⟩, ⟨1, 1, 1⟩⟩ ⟨⟨-1, -1, -1⟩, ⟨1, 1, 1⟩⟩
        ⟨11/5, 11/5, 11/5⟩).boxLocation.x = 0 ∧
    (mouldFinish (mouldStage ⟨⟨-1, -1, -1⟩, ⟨1, 1, 1⟩⟩ ⟨⟨-1, -1, -1⟩, ⟨1, 1, 1⟩⟩
          ⟨11/5, 11/5, 11/5⟩) ⟨31/10, 0, 0⟩ false).boxLocation.x = 63/10 ∧
    (mouldFinish (mouldStage ⟨⟨-1, -1, -1⟩, ⟨1, 1, 1⟩⟩ ⟨⟨-1, -1, -1⟩, ⟨1, 1, 1⟩⟩
          ⟨11/5, 11/5, 11/5⟩) ⟨31/10, 0, 0⟩ false).boxLocation ≠
      (mouldStage ⟨⟨-1, -1, -1⟩, ⟨1, 1, 1⟩⟩ ⟨⟨-1, -1, -1⟩, ⟨1, 1, 1⟩⟩
          ⟨11/5, 11/5, 11/5⟩).boxLocation := by
  refine ⟨rfl, ?_, ?_, ?_⟩
  · norm_num [mouldStage, BBox.center, Vec3.smul]
  · norm_num [mouldFinish, mouldStage, extractBBox, BBox.corners, Vec3.applyTRS,
      qListMin, qListMax, List.foldl, BBox.center, BBox.size, Vec3.smul,
      unitCubeLocal, min_def, max_def]
  · intro h
    have hx := congrArg Vec3.x h
    rw [show (mouldFinish (mouldStage ⟨⟨-1, -1, -1⟩, ⟨1, 1, 1⟩⟩
        ⟨⟨-1, -1, -1⟩, ⟨1, 1, 1⟩⟩ ⟨11/5, 11/5, 11/5⟩) ⟨31/10, 0, 0⟩
        false).boxLocation.x = 63/10 from by
          norm_num [mouldFinish, mouldStage, extractBBox, BBox.corners,
            Vec3.applyTRS, qListMin, qListMax, List.foldl, BBox.center,
            BBox.size, Vec3.smul, unitCubeLocal, min_def, max_def],
      show (mouldStage ⟨⟨-1, -1, -1⟩, ⟨1, 1, 1⟩⟩ ⟨⟨-1, -1, -1⟩, ⟨1, 1, 1⟩⟩
        ⟨11/5, 11/5, 11/5⟩).boxLocation.x = 0 from by
          norm_num [mouldStage, BBox.center, Vec3.smul]] at hx
    norm_num at hx

/-- Claim C4, amended behaviour actually implemented: when the boolean solver
fails, the generator reports the failure (a warning), does not modify the
box's geometry or size, but still applies the final X repositioning to both
the mould box and the cutter (by one identical offset) and returns
`FINISHED`. -/
theorem mould_failure_path_spec (pre : MouldPre) (fitLoc : Vec3) :
    (mouldFinish pre fitLoc false).boxGeom = pre.boxGeom ∧
    (mouldFinish pre fitLoc false).boxHasCavity = false ∧
    (mouldFinish pre fitLoc false).warnedBooleanFailed = true ∧
    (mouldFinish pre fitLoc false).status = .finished ∧
    (mouldFinish pre fitLoc false).boxLocation.x - pre.boxLocation.x =
      (mouldFinish pre fitLoc false).copyLocation.x - pre.copyLocation.x ∧
    (mouldFinish pre fitLoc false).boxLocation.x =
      fitLoc.x + (extractBBox pre.boxLocation ⟨1, 1, 1⟩ pre.boxGeom).size.x + 1 := by
  refine ⟨rfl, rfl, rfl, rfl, ?_, ?_⟩ <;> · simp [mouldFinish]; try ring

/-- Claim C7: on the successful path, the mould box and the retained cutter
are translated by one identical X-only offset, and the cavity box's near
(minimum-X) face ends up exactly `1.0` unit past the fitting box's far
(maximum-X) face. -/
theorem mould_reposition_spec (objB objLocalB : BBox) (fitScale fitLoc : Vec3)
    (hs : (⟨0, 0, 0⟩ : Vec3) ≤ fitScale) :
    ((mouldFinish (mouldStage objB objLocalB fitScale) fitLoc true).boxLocation.x -
        (mouldStage objB objLocalB fitScale).boxLocation.x =
      (mouldFinish (mouldStage objB objLocalB fitScale) fitLoc true).copyLocation.x -
        (mouldStage objB objLocalB fitScale).copyLocation.x) ∧
    (mouldFinish (mouldStage objB objLocalB fitScale) fitLoc true).boxLocation.y =
      (mouldStage objB objLocalB fitScale).boxLocation.y ∧
    (mouldFinish (mouldStage objB objLocalB fitScale) fitLoc true).boxLocation.z =
      (mouldStage objB objLocalB fitScale).boxLocation.z ∧
    (mouldFinish (mouldStage objB objLocalB fitScale) fitLoc true).copyLocation.y =
      (mouldStage objB objLocalB fitScale).copyLocation.y ∧
    (mouldFinish (mouldStage objB objLocalB fitScale) fitLoc true).copyLocation.z =
      (mouldStage objB objLocalB fitScale).copyLocation.z ∧
    (extractBBox (mouldFinish (mouldStage objB objLocalB fitScale) fitLoc true).boxLocation
        ⟨1, 1, 1⟩
        (mouldFinish (mouldStage objB objLocalB fitScale) fitLoc true).boxGeom).min.x =
      (cubeWorldBBox fitLoc fitScale).max.x + 1 ∧
    (mouldFinish (mouldStage objB objLocalB fitScale) fitLoc true).boxHasCavity = true ∧
    (mouldFinish (mouldStage objB objLocalB fitScale) fitLoc true).status = .finished := by
  have hgeom : (mouldStage objB objLocalB fitScale).boxGeom =
      extractBBox ⟨0, 0, 0⟩ fitScale unitCubeLocal := rfl
  have hsize : (extractBBox (mouldStage objB objLocalB fitScale).boxLocation ⟨1, 1, 1⟩
      (mouldStage objB objLocalB fitScale).boxGeom).size.x = fitScale.x := by
    rw [hgeom, mould_geom_world _ _ hs]
    simp [BBox.size, Vec3.smul]
    ring
  refine ⟨?_, rfl, rfl, rfl, rfl, ?_, rfl, rfl⟩
  · simp [mouldFinish]
  · have hfin : (mouldFinish (mouldStage objB objLocalB fitScale) fitLoc true).boxGeom =
        extractBBox ⟨0, 0, 0⟩ fitScale unitCubeLocal := rfl
    rw [hfin, mould_geom_world _ _ hs, cubeWorldBBox_eq _ _ hs]
    have hlocx : (mouldFinish (mouldStage objB objLocalB fitScale) fitLoc true).boxLocation.x =
        fitLoc.x + fitScale.x + 1 := by
      show (mouldStage objB objLocalB fitScale).boxLocation.x +
        ((fitLoc.x + (extractBBox (mouldStage objB objLocalB fitScale).boxLocation ⟨1, 1, 1⟩
          (mouldStage objB objLocalB fitScale).boxGeom).size.x + 1) -
          (mouldStage objB objLocalB fitScale).boxLocation.x) = fitLoc.x + fitScale.x + 1
      rw [hsize]
      ring
    simp only [Vec3.smul, Vec3.add_def, Vec3.sub_def]
    rw [hlocx]
    ring

theorem mould_reposition_spec_witness :
    (extractBBox (mouldFinish (mouldStage ⟨⟨-1, -1, -1⟩, ⟨1, 1, 1⟩⟩
          ⟨⟨-1, -1, -1⟩, ⟨1, 1, 1⟩⟩ ⟨11/5, 11/5, 11/5⟩) ⟨31/10, 0, 0⟩ true).boxLocation
        ⟨1, 1, 1⟩
        (mouldFinish (mouldStage ⟨⟨-1, -1, -1⟩, ⟨1, 1, 1⟩⟩ ⟨⟨-1, -1, -1⟩, ⟨1, 1, 1⟩⟩
          ⟨11/5, 11/5, 11/5⟩) ⟨31/10, 0, 0⟩ true).boxGeom).min.x =
      (cubeWorldBBox ⟨31/10, 0, 0⟩ ⟨11/5, 11/5, 11/5⟩).max.x + 1 :=
  (mould_reposition_spec ⟨⟨-1, -1, -1⟩, ⟨1, 1, 1⟩⟩ ⟨⟨-1, -1, -1⟩, ⟨1, 1, 1⟩⟩
    ⟨11/5, 11/5, 11/5⟩ ⟨31/10, 0, 0⟩
    (by refine ⟨?_, ?_, ?_⟩ <;> norm_num)).2.2.2.2.2.1

/-! ## Scene-level model: naming, registry lookup and selection -/

/-- Name given to the fitting box (line 271). -/
def fittingBoxName (objName : String) : String := objName ++ "_FittingBox"

/-- Name given to the mould box (line 374). -/
def mouldBoxName (objName : String) : String := objName ++ "_MouldBox"

/-- Name given to the duplicated cutter mesh (line 402). -/
def mouldMeshName (objName : String) : String := objName ++ "_MouldMesh"

/-- `OBJECT_OT_CreateMouldBox.poll` (lines 312–321): enabled only when the
active object is a mesh and an object named exactly
`{active.name}_FittingBox` exists in the registry (`bpy.data.objects`). -/
def mouldPoll (registry : List String) (activeName : String) (activeIsMesh : Bool) : Bool :=
  activeIsMesh && decide (fittingBoxName activeName ∈ registry)

/-- Result of the mould operator at the scene level. -/
inductive MouldSceneResult where
  | finished
  | missingDependency
deriving DecidableEq, Repr

/-- Name-registry effect of `OBJECT_OT_CreateMouldBox.execute`: if no object
named `{obj.name}_FittingBox` exists, the operator reports an error and
returns `CANCELLED` before any object is created or any scene state changed
(lines 326–336); otherwise it creates the mould box and the duplicated
cutter mesh under their derived names (lines 371–402). -/
def mouldInvokeNames (registry : List String) (objName : String) :
    List String × MouldSceneResult :=
  if fittingBoxName objName ∈ registry then
    (mouldBoxName objName :: mouldMeshName objName :: registry, .finished)
  else (registry, .missingDependency)

/-- A scene object: identity, name, transform payload and selection flag. -/
structure SObj where
  oid : ℕ
  name : String
  scale : Vec3
  location : Vec3
  selected : Bool
deriving DecidableEq, Repr

/-- The host scene: a fresh-identity counter, the object list and the
identity of the active object. -/
structure Scene where
  nextId : ℕ
  objs : List SObj
  active : Option ℕ
deriving DecidableEq, Repr

/-- `select_set(True)` on the object with the given identity. -/
def setSelected (objs : List SObj) (i : ℕ) : List SObj :=
  objs.map fun o => if o.oid = i then { o with selected := true } else o

/-- Scene-level effect of a successful
`OBJECT_OT_CreateFittingRectangle.execute` (lines 266–292): a new cube
object with a fresh identity is created and named
`{src.name}_FittingBox`, scaled and placed per `fittingBox`; the source is
re-selected (line 290), the new box is selected (line 291) and made the
active object (line 292).  The operator deselects nothing. -/
def fittingInvokeS (sc : Scene) (src : SObj) (srcB : BBox) (p s : ℚ) : Scene :=
  let r := fittingBox srcB p s
  let box : SObj :=
    { oid := sc.nextId, name := fittingBoxName src.name,
      scale := r.scale, location := r.location, selected := true }
  { nextId := sc.nextId + 1
    objs := box :: setSelected sc.objs src.oid
    active := some box.oid }

/-- Claim C6: when no fitting box for the active object exists, `poll`
disables the operator and `execute` fails with the missing-dependency error,
creating no objects and leaving the registry unchanged. -/
theorem mould_missing_dependency_spec (registry : List String) (objName : String)
    (h : fittingBoxName objName ∉ registry) :
    mouldPoll registry objName true = false ∧
    mouldInvokeNames registry objName = (registry, .missingDependency) := by
  constructor
  · simp [mouldPoll, h]
  · simp [mouldInvokeNames, h]

theorem mould_missing_dependency_spec_witness :
    mouldPoll ["Cube"] "Cube" true = false ∧
    mouldInvokeNames ["Cube"] "Cube" = (["Cube"], .missingDependency) :=
  mould_missing_dependency_spec ["Cube"] "Cube" (by decide)

/-- Claim C8: two invocations of the fitting-box generator with identical
inputs create two distinct box objects (fresh identities each time) with
identical scale and identical placement. -/
theorem fitting_two_invocations_spec (sc : Scene) (src : SObj) (b : BBox) (p s : ℚ) :
    (fittingInvokeS (fittingInvokeS sc src b p s) src b p s).objs.length =
      sc.objs.length + 2 ∧
    ∃ o1 o2 : SObj, ∃ rest : List SObj,
      (fittingInvokeS (fittingInvokeS sc src b p s) src b p s).objs =
        o1 :: o2 :: rest ∧
      o1.oid ≠ o2.oid ∧ o1.scale = o2.scale ∧ o1.location = o2.location := by
  constructor
  · simp [fittingInvokeS, setSelected]
  · simp only [fittingInvokeS, setSelected, List.map_cons]
    by_cases h : sc.nextId = src.oid
    · simp only [if_pos h]
      exact ⟨_, _, _, rfl, by simp, rfl, rfl⟩
    · simp only [if_neg h]
      exact ⟨_, _, _, rfl, by simp, rfl, rfl⟩

/-- Claim C10: after a successful fitting-box invocation the new box is
selected and active, the source mesh is selected, and the active object is
the box (whose name differs from the source's), not the source. -/
theorem fitting_selection_spec (sc : Scene) (src : SObj) (b : BBox) (p s : ℚ) :
    ∃ box : SObj, ∃ rest : List SObj,
      (fittingInvokeS sc src b p s).objs = box :: rest ∧
      box.selected = true ∧
      box.name = fittingBoxName src.name ∧
      (fittingInvokeS sc src b p s).active = some box.oid ∧
      box.name ≠ src.name ∧
      ∀ o ∈ sc.objs, o.oid = src.oid →
        { o with selected := true } ∈ (fittingInvokeS sc src b p s).objs := by
  refine ⟨_, _, rfl, rfl, rfl, rfl, ?_, ?_⟩
  · intro h
    have hlen := congrArg String.length h
    rw [fittingBoxName, String.length_append] at hlen
    have h11 : ("_FittingBox" : String).length = 11 := rfl
    omega
  · intro o ho hoid
    exact List.mem_cons_of_mem _ (List.mem_map.mpr ⟨o, ho, by simp [hoid]⟩)

theorem fitting_selection_spec_witness :
    (⟨0, "Cube", ⟨1, 1, 1⟩, ⟨0, 0, 0⟩, true⟩ : SObj) ∈
      (fittingInvokeS ⟨1, [⟨0, "Cube", ⟨1, 1, 1⟩, ⟨0, 0, 0⟩, false⟩], some 0⟩
        ⟨0, "Cube", ⟨1, 1, 1⟩, ⟨0, 0, 0⟩, false⟩ ⟨⟨-1, -1, -1⟩, ⟨1, 1, 1⟩⟩
        (1/10) 1).objs := by
  obtain ⟨box, rest, h1, h2, h3, h4, h5, h6⟩ :=
    fitting_selection_spec ⟨1, [⟨0, "Cube", ⟨1, 1, 1⟩, ⟨0, 0, 0⟩, false⟩], some 0⟩
      ⟨0, "Cube", ⟨1, 1, 1⟩, ⟨0, 0, 0⟩, false⟩ ⟨⟨-1, -1, -1⟩, ⟨1, 1, 1⟩⟩ (1/10) 1
  exact h6 ⟨0, "Cube", ⟨1, 1, 1⟩, ⟨0, 0, 0⟩, false⟩ (by simp) rfl

/-- Claim C9: the dependency between the two operators is keyed purely by
object name — the fitting-box generator names its output exactly
`{src.name}_FittingBox`; the mould operator's `poll` and `execute` look up
exactly that name in the registry (so a renamed box breaks the dependency),
and the mould operator names its outputs `{name}_MouldBox` and
`{name}_MouldMesh`. -/
theorem naming_dependency_spec (n m : String) (registry : List String) :
    fittingBoxName n = n ++ "_FittingBox" ∧
    mouldBoxName n = n ++ "_MouldBox" ∧
    mouldMeshName n = n ++ "_MouldMesh" ∧
    (∀ sc : Scene, ∀ src : SObj, ∀ b : BBox, ∀ p s : ℚ, ∀ box : SObj,
      ∀ rest : List SObj,
      (fittingInvokeS sc src b p s).objs = box :: rest →
        box.name = fittingBoxName src.name) ∧
    (mouldPoll registry n true = true ↔ fittingBoxName n ∈ registry) ∧
    (m ≠ fittingBoxName n → mouldPoll [m] n true = false) ∧
    (fittingBoxName n ∈ registry →
      mouldInvokeNames registry n =
        (mouldBoxName n :: mouldMeshName n :: registry, .finished)) := by
  refine ⟨rfl, rfl, rfl, ?_, ?_, ?_, ?_⟩
  · intro sc src b p s box rest h
    simp only [fittingInvokeS, List.cons.injEq] at h
    rw [← h.1]
  · simp [mouldPoll]
  · intro hm
    simp [mouldPoll]
    exact fun hc => (hm hc.symm).elim
  · intro h
    simp [mouldInvokeNames, h]

theorem naming_dependency_spec_witness :
    mouldPoll ["Renamed"] "Cube" true = false ∧
    mouldInvokeNames ["Cube_FittingBox"] "Cube" =
      (mouldBoxName "Cube" :: mouldMeshName "Cube" :: ["Cube_FittingBox"],
        .finished) := by
  obtain ⟨e1, e2, e3, e4, e5, e6, e7⟩ :=
    naming_dependency_spec "Cube" "Renamed" ["Cube_FittingBox"]
  exact ⟨e6 (by decide), e7 (by decide)⟩
